import Mathlib

/-!
Verification of the request-handoff and streaming-coordination layer of the
dynamo repository, shallowly embedded in Lean 4.

The embedding covers:
* `calculate_kv_perf_metrics` from
  `components/backends/trtllm/src/dynamo/trtllm/request_handlers/handler_base.py`
  (KV transfer metrics, a pure function);
* the validation / parameter-derivation phase of `generate_locally`
  (same file): disaggregation-mode checks, request mutation, sampling-parameter
  merging;
* the incremental stream chunkers `_process_token_stream` /
  `_process_text_stream` from
  `components/src/dynamo/sglang/request_handlers/decode_handler.py`
  and the delta loop of `generate_locally` (trtllm);
* the decode-mode bootstrap rendezvous of `DecodeWorkerHandler.generate`;
* the prefill-side `PrefillWorkerHandler.generate` and
  `_generate_bootstrap_room`;
* an event-trace model of the cancellation-monitor lifecycle in
  `_process_token_stream`.

Python floats that carry timing values are modelled as rationals; Python's
exception control flow is modelled with `Option`/`Except`; asynchronous
generators are modelled as pure functions from the list of engine snapshots
to the list of emitted chunks (the engine stream is consumed in order and the
handler suspends only at iteration boundaries, so this is faithful for the
per-request properties proved here).
-/

namespace Dynamo

/-! ## KV transfer metrics (trtllm `handler_base.py`, lines 107-113)

Source:
```
def calculate_kv_perf_metrics(self, bytes, start, end):
    if bytes == 0:
        return (-1, -1)
    assert start < end, "kv cache performance start time is greater than the end time!"
    total_time = end - start
    return (total_time, bytes / total_time)
```
A failing `assert` raises `AssertionError`; that outcome is modelled as
`none`, a normal return as `some`.
-/

def calculate_kv_perf_metrics (bytes start end_ : ℚ) : Option (ℚ × ℚ) :=
  if bytes = 0 then some (-1, -1)
  else if start < end_ then
    let total_time := end_ - start
    some (total_time, bytes / total_time)
  else none

/-- C2: `calculate_kv_perf_metrics` returns the sentinel pair `(-1, -1)` when
`bytes = 0`; when `bytes ≠ 0` it requires `start < end` (an assertion failure,
modelled as `none`, otherwise) and returns `(end - start, bytes / (end - start))`;
in particular `calculate_kv_perf_metrics 1024 0 2 = (2, 512)` and
`calculate_kv_perf_metrics 0 t0 t1 = (-1, -1)` whenever `t0 < t1`. -/
theorem kv_perf_metrics_spec (bytes start end_ t0 t1 : ℚ) (ht : t0 < t1) :
    (bytes = 0 → calculate_kv_perf_metrics bytes start end_ = some (-1, -1)) ∧
    (bytes ≠ 0 → start < end_ →
      calculate_kv_perf_metrics bytes start end_ =
        some (end_ - start, bytes / (end_ - start))) ∧
    (bytes ≠ 0 → ¬ start < end_ →
      calculate_kv_perf_metrics bytes start end_ = none) ∧
    calculate_kv_perf_metrics 1024 0 2 = some (2, 512) ∧
    calculate_kv_perf_metrics 0 t0 t1 = some (-1, -1) := by
  refine ⟨fun hb => ?_, fun hb hlt => ?_, fun hb hlt => ?_, ?_, ?_⟩
  · simp [calculate_kv_perf_metrics, hb]
  · simp [calculate_kv_perf_metrics, hb, hlt]
  · simp [calculate_kv_perf_metrics, hb, hlt]
  · norm_num [calculate_kv_perf_metrics]
  · simp [calculate_kv_perf_metrics]

/-- Witness for `kv_perf_metrics_spec` at concrete inputs. -/
theorem kv_perf_metrics_spec_witness :
    (0 : ℚ) < 2 ∧
    calculate_kv_perf_metrics 1024 0 2 = some (2, 512) ∧
    calculate_kv_perf_metrics 0 0 2 = some (-1, -1) :=
  ⟨by norm_num,
   (kv_perf_metrics_spec 1024 0 2 0 2 (by norm_num)).2.2.2.1,
   (kv_perf_metrics_spec 1024 0 2 0 2 (by norm_num)).2.2.2.2⟩

/-- C10: for all `start` and `end`, including `start ≥ end`, the call
`calculate_kv_perf_metrics 0 start end` returns `(-1, -1)` without reaching the
assertion or the division (it never produces the `none` outcome that models an
assertion failure), and the function returns normally (`isSome`) whenever
`bytes = 0` or `start < end`. -/
theorem kv_perf_metrics_zero_bytes_total (start end_ : ℚ) :
    calculate_kv_perf_metrics 0 start end_ = some (-1, -1) ∧
    (∀ bytes : ℚ, bytes = 0 ∨ start < end_ →
      (calculate_kv_perf_metrics bytes start end_).isSome) := by
  constructor
  · simp [calculate_kv_perf_metrics]
  · intro bytes hb
    rcases hb with hb | hlt
    · simp [calculate_kv_perf_metrics, hb]
    · by_cases hb0 : bytes = 0
      · simp [calculate_kv_perf_metrics, hb0]
      · simp [calculate_kv_perf_metrics, hb0, hlt]

/-- Witness for `kv_perf_metrics_zero_bytes_total` at concrete inputs:
`start = 5 ≥ end = 3` still yields the sentinel pair when `bytes = 0`, and the
function returns normally at `bytes = 1024, start = 0, end = 2`. -/
theorem kv_perf_metrics_zero_bytes_total_witness :
    calculate_kv_perf_metrics 0 5 3 = some (-1, -1) ∧
    (calculate_kv_perf_metrics 1024 0 2).isSome :=
  ⟨(kv_perf_metrics_zero_bytes_total 5 3).1,
   (kv_perf_metrics_zero_bytes_total 0 2).2 1024 (Or.inr (by norm_num))⟩

/-! ## Stream chunkers

`_process_token_stream` (sglang `decode_handler.py`, lines 165-222) turns the
engine's cumulative snapshots into incremental token chunks.  A snapshot is the
dict `res`: `res["meta_info"]["id"]` (may be absent), the finish-reason dict
(modelled by its `"type"` field), and `res["output_ids"]` (whose absence raises
`ValueError`, modelled by `Except.error`).  The processor keeps
`num_output_tokens_so_far` and emits `output_ids[num_output_tokens_so_far:]`,
or `{"token_ids": [], "finish_reason": fr}` when the finish reason is set. -/

structure SglTokenSnapshot where
  meta_id : Option String
  finish_reason : Option String
  output_ids : Option (List Nat)
  deriving DecidableEq, Repr

structure TokenChunk where
  token_ids : List Nat
  finish_reason : Option String
  deriving DecidableEq, Repr

def processTokenStream : Nat → List SglTokenSnapshot → Except String (List TokenChunk)
  | _, [] => .ok []
  | count, res :: rest =>
    match res.finish_reason with
    | some fr =>
      match processTokenStream count rest with
      | .ok out => .ok ({ token_ids := [], finish_reason := some fr } :: out)
      | .error e => .error e
    | none =>
      match res.output_ids with
      | none => .error "Missing output_ids in response"
      | some ids =>
        match processTokenStream ids.length rest with
        | .ok out => .ok ({ token_ids := ids.drop count, finish_reason := none } :: out)
        | .error e => .error e

/-- A regular engine snapshot in token mode: no finish reason, cumulative
`output_ids` present. -/
def mkTokenSnap (mid : Option String) (ids : List Nat) : SglTokenSnapshot :=
  { meta_id := mid, finish_reason := none, output_ids := some ids }

/-- The terminal engine snapshot in token mode: finish reason set; the engine
still reports the final cumulative `output_ids` (which the handler ignores). -/
def mkFinishSnap (mid : Option String) (fr : String) (ids : List Nat) :
    SglTokenSnapshot :=
  { meta_id := mid, finish_reason := some fr, output_ids := some ids }

/-- `_process_text_stream` (sglang `decode_handler.py`, lines 224-287): each
snapshot carries the cumulative `text` (a Python string, modelled as its list
of characters); the processor keeps `count` and emits `text[count:]` wrapped in
a chat-completion-chunk envelope.  The wall-clock `created` field and the
configured model name are environment inputs, orthogonal to the delta
invariant, and are not modelled. -/

structure SglTextSnapshot where
  meta_id : String
  finish_reason : Option String
  index : Nat
  text : List Char
  deriving DecidableEq, Repr

structure TextChunk where
  id : String
  index : Nat
  role : String
  content : List Char
  finish_reason : Option String
  deriving DecidableEq, Repr

def processTextStream : Nat → List SglTextSnapshot → List TextChunk
  | _, [] => []
  | count, res :: rest =>
    { id := res.meta_id, index := res.index, role := "assistant",
      content := res.text.drop count, finish_reason := res.finish_reason }
      :: processTextStream res.text.length rest

/-- The delta loop of `generate_locally` (trtllm `handler_base.py`, lines
245-311), restricted to the text-only flow (no multimodal processor) and with
the KV-metrics publication and `ctx_request_id` side channel factored out
(they do not touch the token deltas).  A snapshot `res` has a `finished` flag
and a list `outputs`; a finished snapshot (outside PREFILL mode) yields the
final `{"finish_reason": "stop", "token_ids": []}` chunk and stops; an empty
`outputs` yields `{"finish_reason": "error", "token_ids": []}` and stops;
otherwise the chunk carries `output.token_ids[num_output_tokens_so_far:]` with
`finish_reason` / `stop_reason` copied verbatim when set. -/

structure TrtOutput where
  token_ids : List Nat
  finish_reason : Option String
  stop_reason : Option String
  deriving DecidableEq, Repr

structure TrtSnapshot where
  finished : Bool
  outputs : List TrtOutput
  deriving DecidableEq, Repr

structure TrtChunk where
  token_ids : List Nat
  finish_reason : Option String
  stop_reason : Option String
  deriving DecidableEq, Repr

def trtllmTokenStream (isPrefill : Bool) : Nat → List TrtSnapshot → List TrtChunk
  | _, [] => []
  | count, res :: rest =>
    if res.finished && !isPrefill then
      [{ token_ids := [], finish_reason := some "stop", stop_reason := none }]
    else
      match res.outputs with
      | [] => [{ token_ids := [], finish_reason := some "error", stop_reason := none }]
      | output :: _ =>
        { token_ids := output.token_ids.drop count,
          finish_reason := output.finish_reason,
          stop_reason := output.stop_reason }
          :: trtllmTokenStream isPrefill output.token_ids.length rest

/-- A regular (not finished) trtllm snapshot with a single output. -/
def mkTrtSnap (o : TrtOutput) : TrtSnapshot :=
  { finished := false, outputs := [o] }

/-! ### Suffix-delta lemmas -/

lemma chain'_nil_cons {α : Type*} (l : List (List α))
    (h : List.Chain' (· <+: ·) l) : List.Chain' (· <+: ·) ([] :: l) := by
  cases l with
  | nil => simp
  | cons a t => exact h.cons ⟨a, rfl⟩

lemma processTokenStream_chain (mid : Option String) (fr : String)
    (finIds : List Nat) :
    ∀ (prev : List Nat) (regs : List (List Nat)),
      List.Chain' (· <+: ·) (prev :: regs) →
      ∃ out,
        processTokenStream prev.length
            (regs.map (mkTokenSnap mid) ++ [mkFinishSnap mid fr finIds]) =
          .ok out ∧
        prev ++ (out.map TokenChunk.token_ids).flatten = regs.getLastD prev ∧
        out.map TokenChunk.finish_reason =
          regs.map (fun _ => (none : Option String)) ++ [some fr] := by
  intro prev regs
  induction regs generalizing prev with
  | nil =>
    intro _
    exact ⟨[{ token_ids := [], finish_reason := some fr }], rfl, by simp, by simp⟩
  | cons l regs ih =>
    intro hchain
    rw [List.chain'_cons] at hchain
    obtain ⟨⟨t, rfl⟩, hchain⟩ := hchain
    obtain ⟨out, hout, hjoin, hfr⟩ := ih (prev ++ t) hchain
    refine ⟨{ token_ids := (prev ++ t).drop prev.length, finish_reason := none }
        :: out, ?_, ?_, ?_⟩
    · simp only [List.map_cons, List.cons_append, processTokenStream, mkTokenSnap,
        List.append_eq, hout]
    · simp only [List.map_cons, List.flatten_cons, List.getLastD_cons,
        ← List.append_assoc, List.drop_left]
      exact hjoin
    · simpa using hfr

lemma processTextStream_chain :
    ∀ (prev : List Char) (snaps : List SglTextSnapshot),
      List.Chain' (· <+: ·) (prev :: snaps.map SglTextSnapshot.text) →
      prev ++
          ((processTextStream prev.length snaps).map TextChunk.content).flatten =
          (snaps.map SglTextSnapshot.text).getLastD prev ∧
        (processTextStream prev.length snaps).map TextChunk.finish_reason =
          snaps.map SglTextSnapshot.finish_reason := by
  intro prev snaps
  induction snaps generalizing prev with
  | nil => intro _; simp [processTextStream]
  | cons s snaps ih =>
    intro hchain
    rw [List.map_cons, List.chain'_cons] at hchain
    obtain ⟨⟨t, hpre⟩, hchain⟩ := hchain
    rw [← hpre] at hchain
    obtain ⟨hjoin, hfr⟩ := ih (prev ++ t) hchain
    constructor
    · simp only [processTextStream, List.map_cons, List.flatten_cons,
        List.getLastD_cons, ← hpre, ← List.append_assoc, List.drop_left]
      exact hjoin
    · simp only [processTextStream, List.map_cons, ← hpre]
      rw [hfr]

lemma trtllmTokenStream_chain (finSnap : TrtSnapshot)
    (hfin : finSnap.finished = true) :
    ∀ (prev : List Nat) (regs : List TrtOutput),
      List.Chain' (· <+: ·) (prev :: regs.map TrtOutput.token_ids) →
      prev ++
          ((trtllmTokenStream false prev.length
              (regs.map mkTrtSnap ++ [finSnap])).map TrtChunk.token_ids).flatten =
          (regs.map TrtOutput.token_ids).getLastD prev ∧
        (trtllmTokenStream false prev.length
            (regs.map mkTrtSnap ++ [finSnap])).map TrtChunk.finish_reason =
          regs.map TrtOutput.finish_reason ++ [some "stop"] ∧
        (trtllmTokenStream false prev.length
            (regs.map mkTrtSnap ++ [finSnap])).map TrtChunk.stop_reason =
          regs.map TrtOutput.stop_reason ++ [none] := by
  intro prev regs
  induction regs generalizing prev with
  | nil =>
    intro _
    simp [trtllmTokenStream, hfin]
  | cons o regs ih =>
    intro hchain
    rw [List.map_cons, List.chain'_cons] at hchain
    obtain ⟨⟨t, hpre⟩, hchain⟩ := hchain
    rw [← hpre] at hchain
    obtain ⟨hjoin, hfr, hsr⟩ := ih (prev ++ t) hchain
    have hunfold : trtllmTokenStream false prev.length
        ((o :: regs).map mkTrtSnap ++ [finSnap]) =
        { token_ids := o.token_ids.drop prev.length,
          finish_reason := o.finish_reason, stop_reason := o.stop_reason } ::
          trtllmTokenStream false o.token_ids.length
            (regs.map mkTrtSnap ++ [finSnap]) := rfl
    refine ⟨?_, ?_, ?_⟩
    · rw [hunfold]
      simp only [List.map_cons, List.flatten_cons, List.getLastD_cons]
      rw [← hpre, ← List.append_assoc, List.drop_left]
      exact hjoin
    · rw [hunfold]
      simp only [List.map_cons, List.cons_append]
      rw [← hpre, hfr]
    · rw [hunfold]
      simp only [List.map_cons, List.cons_append]
      rw [← hpre, hsr]

/-- C1: for every token-mode stream whose cumulative snapshots form a
prefix chain (the engine's cumulative contract) and whose terminal snapshot
repeats the final cumulative sequence, the concatenation of all emitted
`token_ids` deltas equals the engine's final cumulative token sequence, and in
text mode the concatenation of all emitted `content` deltas equals the final
cumulative text; since every chunk is exactly one delta of fresh suffix, no
previously emitted content is re-emitted, and `finish_reason` / `stop_reason`
set by the engine are carried forward verbatim chunk-by-chunk (shown for the
sglang token and text processors and the trtllm delta loop). -/
theorem stream_delta_invariant
    (mid : Option String) (fr : String)
    (tokenCums : List (List Nat))
    (htok : List.Chain' (· <+: ·) tokenCums)
    (textSnaps : List SglTextSnapshot)
    (htext : List.Chain' (· <+: ·) (textSnaps.map SglTextSnapshot.text))
    (trtRegs : List TrtOutput) (finSnap : TrtSnapshot)
    (hfin : finSnap.finished = true)
    (htrt : List.Chain' (· <+: ·) (trtRegs.map TrtOutput.token_ids)) :
    (∃ out,
      processTokenStream 0
          (tokenCums.map (mkTokenSnap mid) ++
            [mkFinishSnap mid fr (tokenCums.getLastD [])]) = .ok out ∧
        (out.map TokenChunk.token_ids).flatten = tokenCums.getLastD [] ∧
        out.map TokenChunk.finish_reason =
          tokenCums.map (fun _ => (none : Option String)) ++ [some fr]) ∧
    ((processTextStream 0 textSnaps).map TextChunk.content).flatten =
        (textSnaps.map SglTextSnapshot.text).getLastD [] ∧
    (processTextStream 0 textSnaps).map TextChunk.finish_reason =
        textSnaps.map SglTextSnapshot.finish_reason ∧
    ((trtllmTokenStream false 0 (trtRegs.map mkTrtSnap ++ [finSnap])).map
        TrtChunk.token_ids).flatten =
        (trtRegs.map TrtOutput.token_ids).getLastD [] ∧
    (trtllmTokenStream false 0 (trtRegs.map mkTrtSnap ++ [finSnap])).map
        TrtChunk.finish_reason =
      trtRegs.map TrtOutput.finish_reason ++ [some "stop"] ∧
    (trtllmTokenStream false 0 (trtRegs.map mkTrtSnap ++ [finSnap])).map
        TrtChunk.stop_reason = trtRegs.map TrtOutput.stop_reason ++ [none] := by
  obtain ⟨out, h1, h2, h3⟩ :=
    processTokenStream_chain mid fr (tokenCums.getLastD []) [] tokenCums
      (chain'_nil_cons _ htok)
  obtain ⟨h4, h5⟩ :=
    processTextStream_chain [] textSnaps (chain'_nil_cons _ htext)
  obtain ⟨h6, h7, h8⟩ :=
    trtllmTokenStream_chain finSnap hfin [] trtRegs (chain'_nil_cons _ htrt)
  exact ⟨⟨out, h1, by simpa using h2, h3⟩, by simpa using h4, h5,
    by simpa using h6, h7, h8⟩

/-- Witness for `stream_delta_invariant`, instantiating the spec scenario:
cumulative token snapshots `[4]`, `[4,5]` then a finish snapshot, cumulative
texts `"He"`, `"Hello"`, and a trtllm run with a stop reason on the second
output. -/
theorem stream_delta_invariant_witness :
    (∃ out,
      processTokenStream 0
          ([[4], [4, 5]].map (mkTokenSnap (some "r")) ++
            [mkFinishSnap (some "r") "stop" [4, 5]]) = .ok out ∧
        (out.map TokenChunk.token_ids).flatten = [4, 5] ∧
        out.map TokenChunk.finish_reason = [none, none, some "stop"]) ∧
    ((processTextStream 0
        [⟨"id1", none, 0, ['H', 'e']⟩,
         ⟨"id1", some "stop", 0, ['H', 'e', 'l', 'l', 'o']⟩]).map
      TextChunk.content).flatten = ['H', 'e', 'l', 'l', 'o'] ∧
    (trtllmTokenStream false 0
        ([⟨[7], none, none⟩, ⟨[7, 8], some "length", some "reason"⟩].map
          mkTrtSnap ++ [⟨true, [⟨[7, 8], none, none⟩]⟩])).map
      TrtChunk.stop_reason = [none, some "reason", none] := by
  have h := stream_delta_invariant (some "r") "stop" [[4], [4, 5]]
    (List.chain'_pair.mpr ⟨[5], rfl⟩)
    [⟨"id1", none, 0, ['H', 'e']⟩,
     ⟨"id1", some "stop", 0, ['H', 'e', 'l', 'l', 'o']⟩]
    (List.chain'_pair.mpr ⟨['l', 'l', 'o'], rfl⟩)
    [⟨[7], none, none⟩, ⟨[7, 8], some "length", some "reason"⟩]
    ⟨true, [⟨[7, 8], none, none⟩]⟩ rfl
    (List.chain'_pair.mpr ⟨[8], rfl⟩)
  exact ⟨h.1, h.2.1, h.2.2.2.2.2⟩

/-! ## Decode-mode bootstrap rendezvous

`DecodeWorkerHandler.generate` (sglang `decode_handler.py`, lines 115-151),
DECODE branch: it requests the prefill stream, consumes exactly the first item
(`async for info in prefill_stream: bootstrap_info = info.data(); break`),
then checks the cancellation context (`context.is_stopped() or
context.is_killed()`) and returns early if signaled, then raises
`RuntimeError("No bootstrap info received from prefill worker")` if no item
was produced, and only then issues the local engine call with the bootstrap
descriptor.  The model records this control flow as an event trace. -/

structure BootstrapInfo where
  bootstrap_host : String
  bootstrap_port : Nat
  bootstrap_room : Nat
  deriving DecidableEq, Repr

inductive DecodeStep where
  | consumedPrefillItem (b : BootstrapInfo)
  | cancelChecked (signaled : Bool)
  | earlyReturn
  | missingBootstrapError
  | engineCalled (host : String) (port room : Nat)
  deriving DecidableEq, Repr

def DecodeStep.isConsume : DecodeStep → Bool
  | consumedPrefillItem _ => true
  | _ => false

def DecodeStep.isEngineCall : DecodeStep → Bool
  | engineCalled _ _ _ => true
  | _ => false

/-- Trace of the DECODE branch of `generate`.  `items` is the sequence the
paired prefill handler's stream would produce; `hasContext` mirrors the
optional `context` argument and `signaled` the value of
`context.is_stopped() or context.is_killed()` at the check. -/
def decodeGenerate (items : List BootstrapInfo) (hasContext signaled : Bool) :
    List DecodeStep :=
  let consumed : List DecodeStep := match items with
    | [] => []
    | b :: _ => [DecodeStep.consumedPrefillItem b]
  consumed ++
    (if hasContext then [DecodeStep.cancelChecked signaled] else []) ++
    (if hasContext && signaled then [DecodeStep.earlyReturn]
     else
       match items.head? with
       | none => [DecodeStep.missingBootstrapError]
       | some b => [DecodeStep.engineCalled b.bootstrap_host b.bootstrap_port
           b.bootstrap_room])

/-- C3: the DECODE handler reads exactly one item from the prefill stream
(`min 1 items.length` consumption events); when a bootstrap item is available
and cancellation is not signaled, the trace is: consume the item, check the
cancellation context, and only then issue the engine call with that item's
endpoint (never speculatively); an empty prefill stream (uncancelled) fails
with the missing-bootstrap error and no engine call; if cancellation is
already signaled at the check the stream ends early with no engine call. -/
theorem decode_rendezvous_spec (items : List BootstrapInfo)
    (hasContext signaled : Bool) :
    (decodeGenerate items hasContext signaled).countP DecodeStep.isConsume =
        min 1 items.length ∧
    (∀ b rest, items = b :: rest → (hasContext && signaled) = false →
      decodeGenerate items hasContext signaled =
        DecodeStep.consumedPrefillItem b ::
          ((if hasContext then [DecodeStep.cancelChecked signaled] else []) ++
            [DecodeStep.engineCalled b.bootstrap_host b.bootstrap_port
              b.bootstrap_room])) ∧
    (items = [] → (hasContext && signaled) = false →
      decodeGenerate items hasContext signaled =
        (if hasContext then [DecodeStep.cancelChecked signaled] else []) ++
          [DecodeStep.missingBootstrapError]) ∧
    (hasContext = true → signaled = true →
      (decodeGenerate items hasContext signaled).countP
          DecodeStep.isEngineCall = 0 ∧
      (decodeGenerate items hasContext signaled).getLast? =
        some DecodeStep.earlyReturn) := by
  refine ⟨?_, ?_, ?_, ?_⟩
  · cases items <;> cases hasContext <;> cases signaled <;>
      simp [decodeGenerate, DecodeStep.isConsume, List.countP_cons,
        List.countP_append]
  · rintro b rest rfl hfalse
    cases hasContext <;> cases signaled <;> simp_all [decodeGenerate]
  · rintro rfl hfalse
    cases hasContext <;> cases signaled <;> simp_all [decodeGenerate]
  · rintro rfl rfl
    cases items <;>
      simp [decodeGenerate, DecodeStep.isEngineCall, List.countP_cons,
        List.countP_append]

/-- Witness for `decode_rendezvous_spec`: one bootstrap item, live context,
not signaled — the trace consumes the item, checks cancellation, then calls
the engine; and the empty-stream case produces the missing-bootstrap error. -/
theorem decode_rendezvous_spec_witness :
    decodeGenerate [⟨"10.0.0.1", 8998, 42⟩] true false =
        [DecodeStep.consumedPrefillItem ⟨"10.0.0.1", 8998, 42⟩,
         DecodeStep.cancelChecked false,
         DecodeStep.engineCalled "10.0.0.1" 8998 42] ∧
    decodeGenerate [] true false =
        [DecodeStep.cancelChecked false, DecodeStep.missingBootstrapError] ∧
    (decodeGenerate [⟨"10.0.0.1", 8998, 42⟩] true true).countP
        DecodeStep.isEngineCall = 0 :=
  ⟨(decode_rendezvous_spec [⟨"10.0.0.1", 8998, 42⟩] true false).2.1
      ⟨"10.0.0.1", 8998, 42⟩ [] rfl rfl,
   (decode_rendezvous_spec [] true false).2.2.1 rfl rfl,
   ((decode_rendezvous_spec [⟨"10.0.0.1", 8998, 42⟩] true true).2.2.2
      rfl rfl).1⟩

/-! ## Prefill handler

`PrefillWorkerHandler.generate` (sglang `llm/prefill_handler.py`, lines 41-76)
draws a fresh bootstrap room via `_generate_bootstrap_room` (sglang
`handler_base.py`, lines 89-96: `random.randint(0, 2**63 - 1)`), yields the
`BootstrapInfo` dict as the single item of its stream, then issues the engine
call with the same host/port/room and detaches `_consume_results` with
`asyncio.create_task`; the engine results are consumed by that background task
and never yielded to the caller. -/

def generate_bootstrap_room (randint : Nat → Nat → Nat) : Nat :=
  randint 0 (2 ^ 63 - 1)

structure PrefillRun where
  yielded : List BootstrapInfo
  backgroundCall : Option BootstrapInfo
  deriving DecidableEq, Repr

/-- The observable behaviour of `PrefillWorkerHandler.generate`:
`randint` stands for Python's `random.randint`. -/
def prefillGenerate (host : String) (port : Nat)
    (randint : Nat → Nat → Nat) : PrefillRun :=
  let bootstrap_room := generate_bootstrap_room randint
  { yielded := [⟨host, port, bootstrap_room⟩],
    backgroundCall := some ⟨host, port, bootstrap_room⟩ }

/-- C6: the prefill handler's stream yields the `BootstrapInfo`
`{bootstrap_host, bootstrap_port, bootstrap_room}` as its first and only
observable item, with `bootstrap_room` drawn by `randint 0 (2^63 - 1)` — hence
in `[0, 2^63 - 1]` for any draw function honouring Python's `randint`
contract — and the cache-producing engine call is a detached background task
carrying the same rendezvous descriptor, whose results are not part of the
yielded stream. -/
theorem prefill_yields_bootstrap_only (host : String) (port : Nat)
    (randint : Nat → Nat → Nat)
    (hr : ∀ a b, a ≤ b → a ≤ randint a b ∧ randint a b ≤ b) :
    (prefillGenerate host port randint).yielded =
        [⟨host, port, generate_bootstrap_room randint⟩] ∧
    (prefillGenerate host port randint).backgroundCall =
        some ⟨host, port, generate_bootstrap_room randint⟩ ∧
    generate_bootstrap_room randint ≤ 2 ^ 63 - 1 := by
  exact ⟨rfl, rfl, (hr 0 (2 ^ 63 - 1) (Nat.zero_le _)).2⟩

/-- Witness for `prefill_yields_bootstrap_only` with the draw function that
returns the lower bound. -/
theorem prefill_yields_bootstrap_only_witness :
    (prefillGenerate "10.0.0.1" 8998 (fun a _ => a)).yielded =
        [⟨"10.0.0.1", 8998, 0⟩] ∧
    (prefillGenerate "10.0.0.1" 8998 (fun a _ => a)).backgroundCall =
        some ⟨"10.0.0.1", 8998, 0⟩ ∧
    generate_bootstrap_room (fun a _ => a) ≤ 2 ^ 63 - 1 :=
  prefill_yields_bootstrap_only "10.0.0.1" 8998 (fun a _ => a)
    (fun a b h => ⟨Nat.le_refl a, h⟩)

/-! ## Cancellation-monitor lifecycle

An event-trace model of `_process_token_stream` (sglang `decode_handler.py`,
lines 165-222) together with the `_cancellation_monitor` context manager
(sglang `handler_base.py`, lines 165-207).  Each loop iteration: (1) if a
context is present and no monitor exists yet, read `meta_info["id"]` and start
the monitor when it is present; (2) check `is_stopped() or is_killed()` and
break; (3) read the finish reason / `output_ids` and yield the delta chunk, or
raise `ValueError` when `output_ids` is missing.  The cleanup block that calls
`__aexit__` on the monitor context sits AFTER the loop, with no enclosing
`try`/`finally`, so it runs when the loop ends normally or via `break`, but
NOT when the `ValueError` propagates — the model reproduces that control flow
exactly.  Each snapshot is paired with the value the cancellation check reads
at that iteration. -/

inductive StreamEvent where
  | monitorStarted (rid : String)
  | cancelBreak
  | chunkYielded (c : TokenChunk)
  | valueErrorRaised
  | monitorStopped (rid : String)
  deriving DecidableEq, Repr

def StreamEvent.isMonitorStarted : StreamEvent → Bool
  | monitorStarted _ => true
  | _ => false

def StreamEvent.isMonitorStopped : StreamEvent → Bool
  | monitorStopped _ => true
  | _ => false

/-- The `__aexit__` call on the monitor context, performed by the cleanup
block after the loop when a monitor task was created. -/
def monitorCleanup : Option String → List StreamEvent
  | none => []
  | some rid => [StreamEvent.monitorStopped rid]

def runTokenStream (hasContext : Bool) :
    Nat → Option String → List (SglTokenSnapshot × Bool) → List StreamEvent
  | _, monitor, [] => monitorCleanup monitor
  | count, monitor, (res, signaled) :: rest =>
    let startEvents : List StreamEvent :=
      if hasContext && monitor.isNone then
        match res.meta_id with
        | some rid => [StreamEvent.monitorStarted rid]
        | none => []
      else []
    let monitor' : Option String :=
      if hasContext && monitor.isNone then res.meta_id else monitor
    if hasContext && signaled then
      startEvents ++ [StreamEvent.cancelBreak] ++ monitorCleanup monitor'
    else
      match res.finish_reason with
      | some fr =>
        startEvents ++ [StreamEvent.chunkYielded ⟨[], some fr⟩] ++
          runTokenStream hasContext count monitor' rest
      | none =>
        match res.output_ids with
        | none => startEvents ++ [StreamEvent.valueErrorRaised]
        | some ids =>
          startEvents ++ [StreamEvent.chunkYielded ⟨ids.drop count, none⟩] ++
            runTokenStream hasContext ids.length monitor' rest

/-- C7 (failing input): on the exception exit path the monitor is NOT stopped.
With a context present, a first snapshot that carries the engine request id
(starting the monitor) and a second snapshot missing `output_ids` (raising
`ValueError`), the stream terminates with the error and no
`monitorStopped` event — the post-loop cleanup is skipped because there is no
`try`/`finally` around the generation loop.  By contrast, the normal-finish
and cancel-break paths do stop the monitor. -/
theorem cancellation_monitor_leak_on_error :
    runTokenStream true 0 none
        [(⟨some "sgl-1", none, some [1]⟩, false),
         (⟨some "sgl-1", none, none⟩, false)] =
      [StreamEvent.monitorStarted "sgl-1",
       StreamEvent.chunkYielded ⟨[1], none⟩,
       StreamEvent.valueErrorRaised] ∧
    (runTokenStream true 0 none
        [(⟨some "sgl-1", none, some [1]⟩, false),
         (⟨some "sgl-1", none, none⟩, false)]).countP
      StreamEvent.isMonitorStarted = 1 ∧
    (runTokenStream true 0 none
        [(⟨some "sgl-1", none, some [1]⟩, false),
         (⟨some "sgl-1", none, none⟩, false)]).countP
      StreamEvent.isMonitorStopped = 0 ∧
    (runTokenStream true 0 none
        [(⟨some "sgl-1", none, some [1]⟩, false),
         (⟨some "sgl-1", some "stop", some [1, 2]⟩, false)]).countP
      StreamEvent.isMonitorStopped = 1 ∧
    (runTokenStream true 0 none
        [(⟨some "sgl-1", none, some [1]⟩, false),
         (⟨some "sgl-1", none, some [1, 2]⟩, true)]).countP
      StreamEvent.isMonitorStopped = 1 := by
  refine ⟨rfl, rfl, rfl, ?_, rfl⟩
  rfl

/-! ## trtllm `generate_locally`: validation and parameter derivation

From `components/backends/trtllm/src/dynamo/trtllm/request_handlers/handler_base.py`,
lines 186-236.  Python values carried in the request dicts are modelled by
`PyVal` with Python truthiness (`if not value: continue`, `if max_tokens:`,
...).  The codec (`DisaggregatedParamsCodec.decode` composed with the
`DisaggregatedParams(**...)` constructor, defined outside the handler) is an
opaque parameter `codecDecode` from the raw payload to a decoded record with a
mutable `request_type`.  The multimodal-processor branch and the publisher
error queue are orthogonal to the validated claims and are not modelled (the
model follows the text-only flow with no pending publisher error). -/

inductive PyVal where
  | vNone
  | vInt (n : Int)
  | vFloat (x : ℚ)
  | vBool (b : Bool)
  | vStr (s : String)
  deriving DecidableEq, Repr

/-- Python truthiness of the modelled values. -/
def PyVal.truthy : PyVal → Bool
  | .vNone => false
  | .vInt n => n != 0
  | .vFloat x => x != 0
  | .vBool b => b
  | .vStr s => s != ""

structure StopConditions where
  max_tokens : PyVal
  ignore_eos : Option PyVal
  min_tokens : Option PyVal
  deriving DecidableEq, Repr

structure Request where
  token_ids : List Nat
  sampling_options : List (String × PyVal)
  stop_conditions : StopConditions
  disaggregated_params : Option Nat
  deriving DecidableEq, Repr

/-- The decoded disaggregated parameters: the `request_type` tag plus the
engine-opaque remainder (context-request-id and engine payload), abstracted
as a number. -/
structure DisaggParams where
  request_type : String
  payload : Nat
  deriving DecidableEq, Repr

inductive DisaggregationMode where
  | aggregated
  | prefill
  | decode
  | encode
  deriving DecidableEq, Repr

/-- `setattr(sampling_params, k, v)` guarded by
`hasattr(sampling_params, k)`; `fields` is the attribute set of the
`SamplingParams` object. -/
def setattrIf (fields : List String) (p : String → PyVal) (k : String)
    (v : PyVal) : String → PyVal :=
  if k ∈ fields then (fun k2 => if k2 = k then v else p k2) else p

/-- The merge loop
`for key, value in request["sampling_options"].items(): if not value: continue;
if hasattr(sampling_params, key): setattr(sampling_params, key, value)`. -/
def applyOptions (fields : List String) :
    (String → PyVal) → List (String × PyVal) → (String → PyVal)
  | p, [] => p
  | p, (k, v) :: rest =>
    if v.truthy then applyOptions fields (setattrIf fields p k v) rest
    else applyOptions fields p rest

/-- Full sampling-parameter derivation (lines 209-227): deep-copy of the
per-handler defaults, the option merge loop, then the `max_tokens`,
`ignore_eos`, `min_tokens` stop-condition overrides, each applied only when
its value is truthy (`ignore_eos` / `min_tokens` are read with `.get`, so an
absent key behaves as Python `None`). -/
def deriveSamplingParams (fields : List String) (defaults : String → PyVal)
    (opts : List (String × PyVal)) (sc : StopConditions) : String → PyVal :=
  let p := applyOptions fields defaults opts
  let p := if sc.max_tokens.truthy then
      (fun k => if k = "max_tokens" then sc.max_tokens else p k) else p
  let p := if (sc.ignore_eos.getD PyVal.vNone).truthy then
      (fun k => if k = "ignore_eos" then sc.ignore_eos.getD PyVal.vNone
        else p k) else p
  if (sc.min_tokens.getD PyVal.vNone).truthy then
    (fun k => if k = "min_tokens" then sc.min_tokens.getD PyVal.vNone else p k)
  else p

/-- The attribute set used at concrete instantiations. -/
def trtllmSamplingFields : List String :=
  ["temperature", "top_p", "top_k", "max_tokens", "ignore_eos", "min_tokens"]

/-- The engine-call description assembled by `generate_locally` before
`engine.llm.generate_async(...)`. -/
structure Prepared where
  processed_input : List Nat
  sampling_params : String → PyVal
  disaggregated_params : Option DisaggParams
  streaming : Bool

/-- The validation / derivation phase of `generate_locally` (lines 186-236),
up to but not including the engine call.  Returns the (possibly mutated)
request dict together with either the raised `ValueError` message or the
prepared engine call.  In PREFILL mode the source first executes
`request["stop_conditions"]["max_tokens"] = 1` — an in-place mutation of the
caller's request — and synthesizes
`LlmDisaggregatedParams(request_type="context_only")`; a caller-supplied
`disaggregated_params` is then rejected in PREFILL mode and otherwise decoded
with `request_type` overwritten to `"generation_only"`; DECODE mode without
`disaggregated_params` is rejected. -/
def generate_locally_validate (mode : DisaggregationMode)
    (codecDecode : Nat → DisaggParams) (fields : List String)
    (defaults : String → PyVal) (request : Request) :
    Request × Except String Prepared :=
  let request :=
    if mode = .prefill then
      { request with stop_conditions :=
          { request.stop_conditions with max_tokens := PyVal.vInt 1 } }
    else request
  let dp0 : Option DisaggParams :=
    if mode = .prefill then some { request_type := "context_only", payload := 0 }
    else none
  match request.disaggregated_params with
  | some raw =>
    if mode = .prefill then
      (request, .error "Cannot provide disaggregated_params in prefill mode")
    else
      (request, .ok
        { processed_input := request.token_ids,
          sampling_params := deriveSamplingParams fields defaults
            request.sampling_options request.stop_conditions,
          disaggregated_params :=
            some { codecDecode raw with request_type := "generation_only" },
          streaming := if mode = .prefill then false else true })
  | none =>
    if mode = .decode then
      (request, .error "Disaggregated params are required for decode mode")
    else
      (request, .ok
        { processed_input := request.token_ids,
          sampling_params := deriveSamplingParams fields defaults
            request.sampling_options request.stop_conditions,
          disaggregated_params := dp0,
          streaming := if mode = .prefill then false else true })

/-- Number of engine calls `generate_locally` issues: exactly one when
validation succeeds, zero when it raises. -/
def generateLocallyEngineCalls (mode : DisaggregationMode)
    (codecDecode : Nat → DisaggParams) (fields : List String)
    (defaults : String → PyVal) (request : Request) : Nat :=
  match (generate_locally_validate mode codecDecode fields defaults request).2
    with
  | .ok _ => 1
  | .error _ => 0

lemma deriveSamplingParams_max_tokens (fields : List String)
    (defaults : String → PyVal) (opts : List (String × PyVal))
    (sc : StopConditions) (h : sc.max_tokens.truthy = true) :
    deriveSamplingParams fields defaults opts sc "max_tokens" =
      sc.max_tokens := by
  unfold deriveSamplingParams
  by_cases h1 : (sc.ignore_eos.getD PyVal.vNone).truthy <;>
    by_cases h2 : (sc.min_tokens.getD PyVal.vNone).truthy <;>
      simp [h, h1, h2]

/-- C4: in PREFILL mode, a caller-supplied `disaggregated_params` is rejected
with the `ValueError` and no engine call is issued; otherwise
`max_tokens` is forced to `1` (both in the request's stop conditions and in
the derived sampling parameters) and a `DisaggregatedParams` with
`request_type = "context_only"` is synthesized for the engine call, with
streaming disabled. -/
theorem prefill_validation_spec (codecDecode : Nat → DisaggParams)
    (fields : List String) (defaults : String → PyVal) (request : Request) :
    (∀ raw, request.disaggregated_params = some raw →
      (generate_locally_validate .prefill codecDecode fields defaults
          request).2 =
        .error "Cannot provide disaggregated_params in prefill mode" ∧
      generateLocallyEngineCalls .prefill codecDecode fields defaults
          request = 0) ∧
    (request.disaggregated_params = none →
      ∃ p, (generate_locally_validate .prefill codecDecode fields defaults
          request).2 = .ok p ∧
        p.disaggregated_params =
          some { request_type := "context_only", payload := 0 } ∧
        p.sampling_params "max_tokens" = PyVal.vInt 1 ∧
        (generate_locally_validate .prefill codecDecode fields defaults
            request).1.stop_conditions.max_tokens = PyVal.vInt 1 ∧
        p.streaming = false) := by
  constructor
  · intro raw hraw
    constructor
    · simp [generate_locally_validate, hraw]
    · simp [generateLocallyEngineCalls, generate_locally_validate, hraw]
  · intro hnone
    have hv : (generate_locally_validate .prefill codecDecode fields defaults
        request).2 = .ok
        { processed_input := request.token_ids,
          sampling_params := deriveSamplingParams fields defaults
            request.sampling_options
            { max_tokens := PyVal.vInt 1,
              ignore_eos := request.stop_conditions.ignore_eos,
              min_tokens := request.stop_conditions.min_tokens },
          disaggregated_params :=
            some { request_type := "context_only", payload := 0 },
          streaming := false } := by
      simp [generate_locally_validate, hnone]
    refine ⟨_, hv, rfl, ?_, ?_, rfl⟩
    · exact deriveSamplingParams_max_tokens fields defaults
        request.sampling_options _ rfl
    · simp [generate_locally_validate, hnone]

/-- Witness for `prefill_validation_spec`. -/
theorem prefill_validation_spec_witness :
    (generate_locally_validate .prefill (fun n => ⟨"", n⟩)
        trtllmSamplingFields (fun _ => PyVal.vNone)
        { token_ids := [1, 2, 3], sampling_options := [],
          stop_conditions := ⟨PyVal.vInt 5, none, none⟩,
          disaggregated_params := some 7 }).2 =
      .error "Cannot provide disaggregated_params in prefill mode" ∧
    ∃ p, (generate_locally_validate .prefill (fun n => ⟨"", n⟩)
        trtllmSamplingFields (fun _ => PyVal.vNone)
        { token_ids := [1, 2, 3], sampling_options := [],
          stop_conditions := ⟨PyVal.vInt 5, none, none⟩,
          disaggregated_params := none }).2 = .ok p ∧
      p.disaggregated_params =
        some { request_type := "context_only", payload := 0 } ∧
      p.sampling_params "max_tokens" = PyVal.vInt 1 :=
  ⟨((prefill_validation_spec (fun n => ⟨"", n⟩) trtllmSamplingFields
      (fun _ => PyVal.vNone)
      { token_ids := [1, 2, 3], sampling_options := [],
        stop_conditions := ⟨PyVal.vInt 5, none, none⟩,
        disaggregated_params := some 7 }).1 7 rfl).1,
   let h := (prefill_validation_spec (fun n => ⟨"", n⟩) trtllmSamplingFields
      (fun _ => PyVal.vNone)
      { token_ids := [1, 2, 3], sampling_options := [],
        stop_conditions := ⟨PyVal.vInt 5, none, none⟩,
        disaggregated_params := none }).2 rfl
   ⟨h.choose, h.choose_spec.1, h.choose_spec.2.1, h.choose_spec.2.2.1⟩⟩

/-- C5: in DECODE mode, a request lacking `disaggregated_params` fails with
the `ValueError` and no engine call is issued; when present, the payload is
decoded via the codec and its `request_type` overwritten to
`"generation_only"`, with streaming enabled. -/
theorem decode_validation_spec (codecDecode : Nat → DisaggParams)
    (fields : List String) (defaults : String → PyVal) (request : Request) :
    (request.disaggregated_params = none →
      (generate_locally_validate .decode codecDecode fields defaults
          request).2 =
        .error "Disaggregated params are required for decode mode" ∧
      generateLocallyEngineCalls .decode codecDecode fields defaults
          request = 0) ∧
    (∀ raw, request.disaggregated_params = some raw →
      ∃ p, (generate_locally_validate .decode codecDecode fields defaults
          request).2 = .ok p ∧
        p.disaggregated_params =
          some { codecDecode raw with request_type := "generation_only" } ∧
        p.streaming = true) := by
  constructor
  · intro hnone
    constructor
    · simp [generate_locally_validate, hnone]
    · simp [generateLocallyEngineCalls, generate_locally_validate, hnone]
  · intro raw hraw
    have hv : (generate_locally_validate .decode codecDecode fields defaults
        request).2 = .ok
        { processed_input := request.token_ids,
          sampling_params := deriveSamplingParams fields defaults
            request.sampling_options request.stop_conditions,
          disaggregated_params :=
            some { codecDecode raw with request_type := "generation_only" },
          streaming := true } := by
      simp [generate_locally_validate, hraw]
    exact ⟨_, hv, rfl, rfl⟩

/-- Witness for `decode_validation_spec`. -/
theorem decode_validation_spec_witness :
    (generate_locally_validate .decode (fun n => ⟨"ctx", n + 1⟩)
        trtllmSamplingFields (fun _ => PyVal.vNone)
        { token_ids := [1], sampling_options := [],
          stop_conditions := ⟨PyVal.vInt 5, none, none⟩,
          disaggregated_params := none }).2 =
      .error "Disaggregated params are required for decode mode" ∧
    ∃ p, (generate_locally_validate .decode (fun n => ⟨"ctx", n + 1⟩)
        trtllmSamplingFields (fun _ => PyVal.vNone)
        { token_ids := [1], sampling_options := [],
          stop_conditions := ⟨PyVal.vInt 5, none, none⟩,
          disaggregated_params := some 7 }).2 = .ok p ∧
      p.disaggregated_params =
        some { request_type := "generation_only", payload := 8 } :=
  ⟨((decode_validation_spec (fun n => ⟨"ctx", n + 1⟩) trtllmSamplingFields
      (fun _ => PyVal.vNone)
      { token_ids := [1], sampling_options := [],
        stop_conditions := ⟨PyVal.vInt 5, none, none⟩,
        disaggregated_params := none }).1 rfl).1,
   let h := (decode_validation_spec (fun n => ⟨"ctx", n + 1⟩)
      trtllmSamplingFields (fun _ => PyVal.vNone)
      { token_ids := [1], sampling_options := [],
        stop_conditions := ⟨PyVal.vInt 5, none, none⟩,
        disaggregated_params := some 7 }).2 7 rfl
   ⟨h.choose, h.choose_spec.1, h.choose_spec.2.1⟩⟩

/-- C9 counterexample: the claim "generate leaves the caller-supplied request
object unchanged ... in every mode including PREFILL" is false — in PREFILL
mode `generate_locally` executes
`request["stop_conditions"]["max_tokens"] = 1`, mutating the caller's
request: a request dispatched with `max_tokens = 5` comes back with
`max_tokens = 1`. -/
theorem request_mutated_in_prefill :
    decide ((generate_locally_validate .prefill (fun n => ⟨"", n⟩)
        trtllmSamplingFields (fun _ => PyVal.vNone)
        { token_ids := [1, 2, 3], sampling_options := [],
          stop_conditions := ⟨PyVal.vInt 5, none, none⟩,
          disaggregated_params := none }).1 =
      { token_ids := [1, 2, 3], sampling_options := [],
        stop_conditions := ⟨PyVal.vInt 5, none, none⟩,
        disaggregated_params := none }) = false ∧
    (generate_locally_validate .prefill (fun n => ⟨"", n⟩)
        trtllmSamplingFields (fun _ => PyVal.vNone)
        { token_ids := [1, 2, 3], sampling_options := [],
          stop_conditions := ⟨PyVal.vInt 5, none, none⟩,
          disaggregated_params := none }).1.stop_conditions.max_tokens =
      PyVal.vInt 1 := by
  exact ⟨by decide, by decide⟩

/-- C9 (amended): `generate_locally` leaves the caller-supplied request
unchanged in every mode except PREFILL; in PREFILL mode the one and only
change is that `stop_conditions.max_tokens` is overwritten to `1` — in every
mode the request's `token_ids`, `sampling_options`, `disaggregated_params`
and the remaining stop conditions are unchanged. -/
theorem request_frame_condition (mode : DisaggregationMode)
    (codecDecode : Nat → DisaggParams) (fields : List String)
    (defaults : String → PyVal) (request : Request) :
    ((generate_locally_validate mode codecDecode fields defaults
        request).1.token_ids = request.token_ids ∧
      (generate_locally_validate mode codecDecode fields defaults
        request).1.sampling_options = request.sampling_options ∧
      (generate_locally_validate mode codecDecode fields defaults
        request).1.disaggregated_params = request.disaggregated_params ∧
      (generate_locally_validate mode codecDecode fields defaults
        request).1.stop_conditions.ignore_eos =
        request.stop_conditions.ignore_eos ∧
      (generate_locally_validate mode codecDecode fields defaults
        request).1.stop_conditions.min_tokens =
        request.stop_conditions.min_tokens) ∧
    (mode ≠ .prefill →
      (generate_locally_validate mode codecDecode fields defaults
        request).1 = request) ∧
    (mode = .prefill →
      (generate_locally_validate mode codecDecode fields defaults
          request).1 =
        { request with stop_conditions :=
            { request.stop_conditions with max_tokens := PyVal.vInt 1 } }) := by
  cases mode <;>
    rcases hdp : request.disaggregated_params with _ | raw <;>
      simp [generate_locally_validate, hdp]

/-- Witness for `request_frame_condition`: the non-PREFILL branch at a
concrete DECODE request, and the PREFILL branch at the same request. -/
theorem request_frame_condition_witness :
    (generate_locally_validate .decode (fun n => ⟨"", n⟩)
        trtllmSamplingFields (fun _ => PyVal.vNone)
        { token_ids := [1], sampling_options := [("top_k", PyVal.vInt 3)],
          stop_conditions := ⟨PyVal.vInt 5, none, none⟩,
          disaggregated_params := some 7 }).1 =
      { token_ids := [1], sampling_options := [("top_k", PyVal.vInt 3)],
        stop_conditions := ⟨PyVal.vInt 5, none, none⟩,
        disaggregated_params := some 7 } ∧
    (generate_locally_validate .prefill (fun n => ⟨"", n⟩)
        trtllmSamplingFields (fun _ => PyVal.vNone)
        { token_ids := [1], sampling_options := [("top_k", PyVal.vInt 3)],
          stop_conditions := ⟨PyVal.vInt 5, none, none⟩,
          disaggregated_params := none }).1 =
      { token_ids := [1], sampling_options := [("top_k", PyVal.vInt 3)],
        stop_conditions := ⟨PyVal.vInt 1, none, none⟩,
        disaggregated_params := none } :=
  ⟨(request_frame_condition .decode (fun n => ⟨"", n⟩) trtllmSamplingFields
      (fun _ => PyVal.vNone)
      { token_ids := [1], sampling_options := [("top_k", PyVal.vInt 3)],
        stop_conditions := ⟨PyVal.vInt 5, none, none⟩,
        disaggregated_params := some 7 }).2.1 (by decide),
   (request_frame_condition .prefill (fun n => ⟨"", n⟩) trtllmSamplingFields
      (fun _ => PyVal.vNone)
      { token_ids := [1], sampling_options := [("top_k", PyVal.vInt 3)],
        stop_conditions := ⟨PyVal.vInt 5, none, none⟩,
        disaggregated_params := none }).2.2 rfl⟩

/-- The per-key effect of the option merge: a present, truthy caller value
overrides; an absent or falsy one keeps the previous value. -/
def mergeVal (d : PyVal) : Option PyVal → PyVal
  | some v => if v.truthy then v else d
  | none => d

lemma lookup_eq_none_of_not_mem {l : List (String × PyVal)} {k : String}
    (h : k ∉ l.map Prod.fst) : l.lookup k = none := by
  induction l with
  | nil => rfl
  | cons p l ih =>
    obtain ⟨k1, v1⟩ := p
    simp only [List.map_cons, List.mem_cons, not_or] at h
    have hne : (k == k1) = false := beq_eq_false_iff_ne.mpr h.1
    simp [List.lookup, hne, ih h.2]

lemma applyOptions_lookup (fields : List String) (f : String) (hf : f ∈ fields) :
    ∀ (p : String → PyVal) (opts : List (String × PyVal)),
      (opts.map Prod.fst).Nodup →
      applyOptions fields p opts f = mergeVal (p f) (opts.lookup f) := by
  intro p opts
  induction opts generalizing p with
  | nil => intro _; rfl
  | cons kv opts ih =>
    obtain ⟨k, v⟩ := kv
    intro hnd
    simp only [List.map_cons, List.nodup_cons] at hnd
    obtain ⟨hk, hnd⟩ := hnd
    by_cases hfk : f = k
    · subst hfk
      have hlook : opts.lookup f = none := lookup_eq_none_of_not_mem hk
      by_cases htr : v.truthy <;>
        simp [applyOptions, htr, ih _ hnd, hlook, mergeVal, setattrIf, hf,
          List.lookup]
    · have hbe : (f == k) = false := beq_eq_false_iff_ne.mpr hfk
      have hset : setattrIf fields p k v f = p f := by
        unfold setattrIf
        split
        · simp [hfk]
        · rfl
      by_cases htr : v.truthy <;>
        simp [applyOptions, htr, ih _ hnd, mergeVal, List.lookup, hbe, hset]

lemma deriveSamplingParams_other (fields : List String)
    (defaults : String → PyVal) (opts : List (String × PyVal))
    (sc : StopConditions) (f : String) (hfm : f ≠ "max_tokens")
    (hfi : f ≠ "ignore_eos") (hfn : f ≠ "min_tokens") :
    deriveSamplingParams fields defaults opts sc f =
      applyOptions fields defaults opts f := by
  unfold deriveSamplingParams
  by_cases h1 : sc.max_tokens.truthy <;>
    by_cases h2 : (sc.ignore_eos.getD PyVal.vNone).truthy <;>
      by_cases h3 : (sc.min_tokens.getD PyVal.vNone).truthy <;>
        simp [h1, h2, h3, hfm, hfi, hfn]

lemma deriveSamplingParams_stop_layers (fields : List String)
    (defaults : String → PyVal) (opts : List (String × PyVal))
    (sc : StopConditions) :
    (deriveSamplingParams fields defaults opts sc "max_tokens" =
      if sc.max_tokens.truthy then sc.max_tokens
      else applyOptions fields defaults opts "max_tokens") ∧
    (deriveSamplingParams fields defaults opts sc "ignore_eos" =
      if (sc.ignore_eos.getD PyVal.vNone).truthy then
        sc.ignore_eos.getD PyVal.vNone
      else applyOptions fields defaults opts "ignore_eos") ∧
    (deriveSamplingParams fields defaults opts sc "min_tokens" =
      if (sc.min_tokens.getD PyVal.vNone).truthy then
        sc.min_tokens.getD PyVal.vNone
      else applyOptions fields defaults opts "min_tokens") := by
  unfold deriveSamplingParams
  by_cases h1 : sc.max_tokens.truthy <;>
    by_cases h2 : (sc.ignore_eos.getD PyVal.vNone).truthy <;>
      by_cases h3 : (sc.min_tokens.getD PyVal.vNone).truthy <;>
        refine ⟨by simp [h1, h2, h3], by simp [h1, h2, h3],
          by simp [h1, h2, h3]⟩

/-! ### sglang `_build_sampling_params` (`decode_handler.py`, lines 63-93)

The sglang decode handler derives engine sampling parameters differently from
the trtllm handler: it reads a fixed mapping of fields (token-based format:
`sampling_options.{temperature, top_p, top_k}` and
`stop_conditions.{max_tokens, ignore_eos}`; OpenAI format: the request's
top-level `temperature`, `top_p`, `top_k`, `max_tokens`) via `.get` — which
yields Python `None` (`PyVal.vNone`) when the key is absent — and returns
`{k: v for k, v in param_mapping.items() if v is not None}`.  No per-handler
defaults are copied (engine-side defaults apply inside SGLang), the filter
tests `is not None` rather than truthiness, and the stop conditions'
`min_tokens` is never read. -/

structure SglSamplingOptions where
  temperature : PyVal
  top_p : PyVal
  top_k : PyVal
  deriving DecidableEq, Repr

structure SglStopConditions where
  max_tokens : PyVal
  ignore_eos : PyVal
  min_tokens : PyVal
  deriving DecidableEq, Repr

structure SglOpenAIRequest where
  temperature : PyVal
  top_p : PyVal
  top_k : PyVal
  max_tokens : PyVal
  deriving DecidableEq, Repr

def build_sampling_params (skip_tokenizer_init : Bool)
    (sampling_opts : SglSamplingOptions) (stop_conditions : SglStopConditions)
    (request : SglOpenAIRequest) : List (String × PyVal) :=
  let param_mapping : List (String × PyVal) :=
    if skip_tokenizer_init then
      [("temperature", sampling_opts.temperature),
       ("top_p", sampling_opts.top_p),
       ("top_k", sampling_opts.top_k),
       ("max_new_tokens", stop_conditions.max_tokens),
       ("ignore_eos", stop_conditions.ignore_eos)]
    else
      [("temperature", request.temperature),
       ("top_p", request.top_p),
       ("top_k", request.top_k),
       ("max_new_tokens", request.max_tokens)]
  param_mapping.filter (fun kv => kv.2 != PyVal.vNone)

/-- C8 counterexample: the claim — every request's parameters override the
per-handler defaults with exactly the caller values that are present and
non-empty, absent or empty fields keeping the default — is false of sglang
`_build_sampling_params`: the filter tests `is not None`, not emptiness, so a
present-but-empty `temperature = 0.0` IS forwarded to the engine (overriding
the engine-side default), while a supplied `min_tokens = 5` is not forwarded
at all; the trtllm derivation, by contrast, drops the falsy value and keeps
its default. -/
theorem sglang_sampling_counterexample :
    build_sampling_params true
        ⟨PyVal.vFloat 0, PyVal.vNone, PyVal.vNone⟩
        ⟨PyVal.vInt 16, PyVal.vNone, PyVal.vInt 5⟩
        ⟨PyVal.vNone, PyVal.vNone, PyVal.vNone, PyVal.vNone⟩ =
      [("temperature", PyVal.vFloat 0), ("max_new_tokens", PyVal.vInt 16)] ∧
    (build_sampling_params true
        ⟨PyVal.vFloat 0, PyVal.vNone, PyVal.vNone⟩
        ⟨PyVal.vInt 16, PyVal.vNone, PyVal.vInt 5⟩
        ⟨PyVal.vNone, PyVal.vNone, PyVal.vNone, PyVal.vNone⟩).lookup
      "min_tokens" = none ∧
    deriveSamplingParams trtllmSamplingFields (fun _ => PyVal.vFloat 1)
        [("temperature", PyVal.vFloat 0)] ⟨PyVal.vNone, none, none⟩
      "temperature" = PyVal.vFloat 1 := by
  refine ⟨by decide, by decide, by decide⟩

/-- C8 (amended): for every trtllm request, the engine sampling parameters
start from a copy of the per-handler defaults; the merge loop overrides
exactly those attribute fields whose caller-supplied sampling-option value is
present and truthy (absent or falsy values keep the default, keys that are
not attributes are ignored); and the stop-condition values `max_tokens`,
`ignore_eos`, `min_tokens` override the merged parameters only when supplied
(an absent or falsy stop-condition value leaves the merged value in place).
The sglang `_build_sampling_params` copies no per-handler defaults and
forwards to the engine exactly those of its read fields whose values are
present (`is not None`) — in particular a present-but-empty value such as
`temperature = 0.0` is forwarded — and `min_tokens` is never forwarded, in
either request format. -/
theorem sampling_merge_spec (fields : List String) (defaults : String → PyVal)
    (opts : List (String × PyVal)) (sc : StopConditions) (f : String)
    (so : SglSamplingOptions) (sc2 : SglStopConditions)
    (oa : SglOpenAIRequest)
    (hnd : (opts.map Prod.fst).Nodup) (hf : f ∈ fields)
    (hfm : f ≠ "max_tokens") (hfi : f ≠ "ignore_eos")
    (hfn : f ≠ "min_tokens") :
    applyOptions fields defaults opts f =
        mergeVal (defaults f) (opts.lookup f) ∧
    deriveSamplingParams fields defaults opts sc f =
        applyOptions fields defaults opts f ∧
    deriveSamplingParams fields defaults opts sc "max_tokens" =
        (if sc.max_tokens.truthy then sc.max_tokens
         else applyOptions fields defaults opts "max_tokens") ∧
    deriveSamplingParams fields defaults opts sc "ignore_eos" =
        (if (sc.ignore_eos.getD PyVal.vNone).truthy then
          sc.ignore_eos.getD PyVal.vNone
         else applyOptions fields defaults opts "ignore_eos") ∧
    deriveSamplingParams fields defaults opts sc "min_tokens" =
        (if (sc.min_tokens.getD PyVal.vNone).truthy then
          sc.min_tokens.getD PyVal.vNone
         else applyOptions fields defaults opts "min_tokens") ∧
    (sc.ignore_eos = none →
      deriveSamplingParams fields defaults opts sc "ignore_eos" =
        applyOptions fields defaults opts "ignore_eos") ∧
    (sc.min_tokens = none →
      deriveSamplingParams fields defaults opts sc "min_tokens" =
        applyOptions fields defaults opts "min_tokens") ∧
    (∀ k v, (k, v) ∈ build_sampling_params true so sc2 oa ↔
      ((k, v) ∈ ([("temperature", so.temperature), ("top_p", so.top_p),
        ("top_k", so.top_k), ("max_new_tokens", sc2.max_tokens),
        ("ignore_eos", sc2.ignore_eos)] : List (String × PyVal)) ∧
        v ≠ PyVal.vNone)) ∧
    (so.temperature ≠ PyVal.vNone →
      ("temperature", so.temperature) ∈ build_sampling_params true so sc2 oa) ∧
    (∀ b : Bool,
      "min_tokens" ∉ (build_sampling_params b so sc2 oa).map Prod.fst) := by
  obtain ⟨hmax, hie, hmin⟩ :=
    deriveSamplingParams_stop_layers fields defaults opts sc
  refine ⟨applyOptions_lookup fields f hf defaults opts hnd,
    deriveSamplingParams_other fields defaults opts sc f hfm hfi hfn,
    hmax, hie, hmin, ?_, ?_, ?_, ?_, ?_⟩
  · intro hnone
    rw [hie, hnone]
    simp [PyVal.truthy]
  · intro hnone
    rw [hmin, hnone]
    simp [PyVal.truthy]
  · intro k v
    simp [build_sampling_params, List.mem_filter, bne_iff_ne]
  · intro h
    simp [build_sampling_params, List.mem_filter, bne_iff_ne, h]
  · intro b
    cases b <;> simp [build_sampling_params]

/-- Witness for `sampling_merge_spec`: trtllm side — defaults all `None`; the
caller supplies a truthy `temperature` and a falsy `top_p`; stop conditions
supply `max_tokens = 16` and `min_tokens = 2` but no `ignore_eos`; sglang
side — a present `temperature` is forwarded and a supplied `min_tokens = 5`
is not. -/
theorem sampling_merge_spec_witness :
    applyOptions trtllmSamplingFields (fun _ => PyVal.vNone)
        [("temperature", PyVal.vFloat 2), ("top_p", PyVal.vNone)]
        "temperature" = PyVal.vFloat 2 ∧
    deriveSamplingParams trtllmSamplingFields (fun _ => PyVal.vNone)
        [("temperature", PyVal.vFloat 2), ("top_p", PyVal.vNone)]
        ⟨PyVal.vInt 16, none, some (PyVal.vInt 2)⟩ "temperature" =
      PyVal.vFloat 2 ∧
    deriveSamplingParams trtllmSamplingFields (fun _ => PyVal.vNone)
        [("temperature", PyVal.vFloat 2), ("top_p", PyVal.vNone)]
        ⟨PyVal.vInt 16, none, some (PyVal.vInt 2)⟩ "max_tokens" =
      PyVal.vInt 16 ∧
    deriveSamplingParams trtllmSamplingFields (fun _ => PyVal.vNone)
        [("temperature", PyVal.vFloat 2), ("top_p", PyVal.vNone)]
        ⟨PyVal.vInt 16, none, some (PyVal.vInt 2)⟩ "ignore_eos" =
      PyVal.vNone ∧
    deriveSamplingParams trtllmSamplingFields (fun _ => PyVal.vNone)
        [("temperature", PyVal.vFloat 2), ("top_p", PyVal.vNone)]
        ⟨PyVal.vInt 16, none, some (PyVal.vInt 2)⟩ "min_tokens" =
      PyVal.vInt 2 ∧
    ("temperature", PyVal.vFloat 2) ∈ build_sampling_params true
        ⟨PyVal.vFloat 2, PyVal.vNone, PyVal.vNone⟩
        ⟨PyVal.vInt 16, PyVal.vNone, PyVal.vInt 5⟩
        ⟨PyVal.vNone, PyVal.vNone, PyVal.vNone, PyVal.vNone⟩ ∧
    "min_tokens" ∉ (build_sampling_params true
        ⟨PyVal.vFloat 2, PyVal.vNone, PyVal.vNone⟩
        ⟨PyVal.vInt 16, PyVal.vNone, PyVal.vInt 5⟩
        ⟨PyVal.vNone, PyVal.vNone, PyVal.vNone, PyVal.vNone⟩).map
      Prod.fst := by
  have h := sampling_merge_spec trtllmSamplingFields (fun _ => PyVal.vNone)
    [("temperature", PyVal.vFloat 2), ("top_p", PyVal.vNone)]
    ⟨PyVal.vInt 16, none, some (PyVal.vInt 2)⟩ "temperature"
    ⟨PyVal.vFloat 2, PyVal.vNone, PyVal.vNone⟩
    ⟨PyVal.vInt 16, PyVal.vNone, PyVal.vInt 5⟩
    ⟨PyVal.vNone, PyVal.vNone, PyVal.vNone, PyVal.vNone⟩
    (by decide) (by decide) (by decide) (by decide) (by decide)
  refine ⟨h.1.trans (by decide), h.2.1.trans (h.1.trans (by decide)),
    h.2.2.1.trans (by decide), (h.2.2.2.2.2.1 rfl).trans (by decide),
    h.2.2.2.2.1.trans (by decide),
    h.2.2.2.2.2.2.2.2.1 (by decide),
    h.2.2.2.2.2.2.2.2.2 true⟩

end Dynamo
